import Mathlib

/-!
Shallow embedding of `src/vector_store/insert_data.py` from
gallardorafael/sentinel-multimodal-search.

The script has three parts:
* `create_collection` — collection provisioning against a Milvus store
  (list / drop / create), with an optional `delete_existing_collection` flag;
* `insert_data` — the ingestion loop: per dataset item, open the image,
  extract an embedding, build a record dict and insert it, accumulating
  `inserted_count` from the store's per-call acknowledgment;
* `main` — argument parsing, client construction, provisioning, and the
  dataset-type dispatch (`flickr8k` / `flickr30k` / `ValueError`).

External collaborators (the Milvus client, the PIL image loader, the
feature extractor, the dataset readers) are modelled as an explicit store
state, an environment of oracles, and dataset functions; every externally
visible call the script makes is recorded in an event trace.
-/

set_option autoImplicit false

namespace SentinelIngest

/-- A value stored in a record dict: either a string (path / caption) or an
embedding vector. Embedding entries are opaque to the logic; they are
modelled as integers. -/
inductive Value where
  | str : String → Value
  | vec : List Int → Value
deriving DecidableEq

/-- A record submitted to the store: a Python dict, modelled as an
association list in key-insertion order. -/
abbrev Record := List (String × Value)

/-- Python dict assignment `d[k] = v`: if `k` is present its value is
replaced in place (the key keeps its original position), otherwise the
pair is appended. A dict literal is a sequence of such assignments. -/
def dictAssign (d : Record) (k : String) (v : Value) : Record :=
  if d.any (fun p => p.1 = k) then
    d.map (fun p => if p.1 = k then (k, v) else p)
  else
    d ++ [(k, v)]

/-- The record dict built at `insert_data` lines 107-111:
`{"filename": image_path, "caption": caption, vector_field_name: embeddings}`. -/
def buildRecord (image_path caption vector_field_name : String)
    (embeddings : List Int) : Record :=
  dictAssign
    (dictAssign
      (dictAssign [] "filename" (Value.str image_path))
      "caption" (Value.str caption))
    vector_field_name (Value.vec embeddings)

/-- The schema of a Milvus collection as fixed by `client.create_collection`
(lines 76-83). -/
structure Schema where
  vector_field_name : String
  dimension : Int
  auto_id : Bool
  enable_dynamic_field : Bool
  metric_type : String
deriving DecidableEq

/-- The remote store's collection namespace: names with their schemas. -/
structure StoreState where
  collections : List (String × Schema)
deriving DecidableEq

/-- `client.list_collections()`. -/
def listCollectionNames (s : StoreState) : List String :=
  s.collections.map Prod.fst

/-- `client.drop_collection(collection_name=n)`; dropping an absent name
removes nothing. -/
def dropColl (s : StoreState) (n : String) : StoreState :=
  ⟨s.collections.filter (fun p => p.1 ≠ n)⟩

/-- `client.create_collection(...)`: registers the name with its schema. -/
def createColl (s : StoreState) (n : String) (sch : Schema) : StoreState :=
  ⟨s.collections ++ [(n, sch)]⟩

/-- Schema lookup in the store, for stating what a run left behind. -/
def getSchema (s : StoreState) (n : String) : Option Schema :=
  (s.collections.find? (fun p => p.1 = n)).map Prod.snd

/-- One externally visible call made by the script. -/
inductive Event where
  | clientConstruct (uri db_name : String)
  | listCollectionsCall
  | createCollectionCall (name : String) (schema : Schema)
  | dropCollectionCall (name : String)
  | insertCall (collection : String) (record : Record)
  | extractFeaturesCall (image_path : String)
deriving DecidableEq

/-- Calls that reach the vector store (client construction is separate). -/
def Event.isStoreCall : Event → Bool
  | .listCollectionsCall => true
  | .createCollectionCall _ _ => true
  | .dropCollectionCall _ => true
  | .insertCall _ _ => true
  | _ => false

def Event.isInsert : Event → Bool
  | .insertCall _ _ => true
  | _ => false

def Event.isExtract : Event → Bool
  | .extractFeaturesCall _ => true
  | _ => false

def Event.isDrop : Event → Bool
  | .dropCollectionCall _ => true
  | _ => false

/-- Provisioning outcome, per the spec's `provision` contract; in the code
the three outcomes are the three control-flow paths of `create_collection`
(skip-return / drop-then-create / plain create). -/
inductive Outcome where
  | created
  | skipped
  | replaced
deriving DecidableEq

/-- `create_collection` (lines 47-83): if the name is listed and the flag is
off, warn and return; if listed and the flag is on, drop then create; if
absent, create. Returns the new store state, the outcome, and the calls
made. -/
def create_collection (s : StoreState) (collection_name vector_field_name : String)
    (dimension : Int) (metric_type : String) (delete_existing_collection : Bool) :
    StoreState × Outcome × List Event :=
  if (listCollectionNames s).contains collection_name then
    if !delete_existing_collection then
      (s, Outcome.skipped, [Event.listCollectionsCall])
    else
      let sch : Schema := ⟨vector_field_name, dimension, true, true, metric_type⟩
      (createColl (dropColl s collection_name) collection_name sch, Outcome.replaced,
        [Event.listCollectionsCall, Event.dropCollectionCall collection_name,
         Event.createCollectionCall collection_name sch])
  else
    let sch : Schema := ⟨vector_field_name, dimension, true, true, metric_type⟩
    (createColl s collection_name sch, Outcome.created,
      [Event.listCollectionsCall, Event.createCollectionCall collection_name sch])

/-- A dataset item as consumed by the loop: `image_object.image_path` and
`image_object.best_caption`. -/
structure DatasetItem where
  image_path : String
  best_caption : String
deriving DecidableEq

/-- The per-item failure that a loop iteration can raise: `Image.open`
failing, or `get_image_features` failing. The code has no handler for
either. -/
inductive RunError where
  | itemLoadError (image_path : String)
  | extractionError (image_path : String)
deriving DecidableEq

/-- Oracles for the external collaborators of the loop: whether `Image.open`
succeeds on a path, whether the extractor succeeds, the embedding it
returns, and the `insert_count` the store acknowledges for a record. -/
structure Env where
  loadOk : String → Bool
  extractOk : String → Bool
  features : String → List Int
  insertCount : Record → Int

/-- The loop's running state: `inserted_count` (line 93), the number of loop
iterations completed, and the calls made so far. -/
structure IngestState where
  inserted_count : Int
  attempted : Nat
  events : List Event
deriving DecidableEq

/-- One iteration of the `insert_data` loop body (lines 94-115): open the
image, extract features, build the record, insert it, and add the
acknowledged `insert_count` when it is positive. A load or extraction
failure is an uncaught exception. -/
def processItem (env : Env) (collection_name vector_field_name : String)
    (st : IngestState) (item : DatasetItem) : Except RunError IngestState :=
  if env.loadOk item.image_path then
    if env.extractOk item.image_path then
      let embeddings := env.features item.image_path
      let record := buildRecord item.image_path item.best_caption vector_field_name embeddings
      let cnt := env.insertCount record
      Except.ok
        { inserted_count := if cnt > 0 then st.inserted_count + cnt else st.inserted_count,
          attempted := st.attempted + 1,
          events := st.events ++ [Event.extractFeaturesCall item.image_path,
                                  Event.insertCall collection_name record] }
    else
      Except.error (RunError.extractionError item.image_path)
  else
    Except.error (RunError.itemLoadError item.image_path)

/-- The `for` loop of `insert_data`: sequential, single pass; an uncaught
per-item exception stops the loop and propagates (`some e`), keeping the
state reached so far. -/
def insertLoop (env : Env) (collection_name vector_field_name : String) :
    IngestState → List DatasetItem → IngestState × Option RunError
  | st, [] => (st, none)
  | st, item :: rest =>
    match processItem env collection_name vector_field_name st item with
    | Except.ok st' => insertLoop env collection_name vector_field_name st' rest
    | Except.error e => (st, some e)

/-- `insert_data` (lines 86-116): run the loop from `inserted_count = 0`. -/
def insert_data (env : Env) (collection_name vector_field_name : String)
    (items : List DatasetItem) : IngestState × Option RunError :=
  insertLoop env collection_name vector_field_name ⟨0, 0, []⟩ items

/-- argparse acceptance of `--data_type`: the flag is optional (default
`None`) and an explicit value must be one of the two `choices`; any other
explicit value makes argparse exit before `main`'s body runs. -/
def parse_args_ok (data_type : Option String) : Bool :=
  match data_type with
  | none => true
  | some s => s = "flickr8k" || s = "flickr30k"

/-- The parsed CLI arguments used by `main`. -/
structure Args where
  data_path : String
  data_type : Option String
  uri : String
  collection_name : String
  db_name : String
  dimension : Int
  metric_type : String
  delete_existing_collection : Bool

/-- How a run of the program ends: argparse rejection (exit 2), a completed
`insert_data` run (with `none`, or the uncaught per-item exception), or the
`raise ValueError("Invalid dataset type")` of the final `else`. -/
inductive MainResult where
  | argparseExit
  | finished (st : IngestState) (err : Option RunError)
  | valueError
deriving DecidableEq

/-- `main` (lines 119-160): parse the arguments, construct the client,
provision the collection, then dispatch on the dataset type. The vector
field name is the `DEFAULT_VECTOR_FIELD_NAME` constant, passed in here
because its defining module is outside the embedded file. -/
def main (default_vector_field_name : String) (env : Env)
    (flickr8kItems flickr30kItems : String → List DatasetItem)
    (args : Args) (s : StoreState) : MainResult × List Event × StoreState :=
  if parse_args_ok args.data_type then
    let ev0 : List Event := [Event.clientConstruct args.uri args.db_name]
    let pc := create_collection s args.collection_name default_vector_field_name
                args.dimension args.metric_type args.delete_existing_collection
    if args.data_type = some "flickr8k" then
      let r := insert_data env args.collection_name default_vector_field_name
                 (flickr8kItems args.data_path)
      (MainResult.finished r.1 r.2, ev0 ++ pc.2.2 ++ r.1.events, pc.1)
    else if args.data_type = some "flickr30k" then
      let r := insert_data env args.collection_name default_vector_field_name
                 (flickr30kItems args.data_path)
      (MainResult.finished r.1 r.2, ev0 ++ pc.2.2 ++ r.1.events, pc.1)
    else
      (MainResult.valueError, ev0 ++ pc.2.2, pc.1)
  else
    (MainResult.argparseExit, [], s)

/-- An environment in which every load, extraction and insert succeeds and
every insert is acknowledged with count 1. -/
def envAllOk : Env :=
  ⟨fun _ => true, fun _ => true, fun _ => [1, 2], fun _ => 1⟩

/-- A one-item dataset reader, for concrete runs. -/
def oneItemDataset : String → List DatasetItem :=
  fun _ => [⟨"img1.jpg", "a cat"⟩]


/- Concrete environments, datasets, arguments and store states used in the
concrete runs below. -/
def envC2 : Env := ⟨fun p => !(p == "bad.jpg"), fun _ => true, fun _ => [1, 2], fun _ => 1⟩
def itemsC2 : List DatasetItem := [⟨"bad.jpg", "c1"⟩, ⟨"ok.jpg", "c2"⟩]
def envZeroAck : Env := ⟨fun _ => true, fun _ => true, fun _ => [1, 2], fun _ => 0⟩
def argsC1 : Args := ⟨"/data", some "flickr8k", "http://x", "col", "db", 4, "COSINE", false⟩
def s0C1 : StoreState := ⟨[("col", ⟨"v", 8, true, true, "L2"⟩)]⟩
def argsC4 : Args := ⟨"/data", none, "http://x", "col", "db", 4, "COSINE", false⟩

/- Lemmas about the store operations and the ingestion loop. -/
theorem mem_createColl (s : StoreState) (n : String) (sch : Schema) :
    n ∈ listCollectionNames (createColl s n sch) := by
  simp [listCollectionNames, createColl]

theorem getSchema_create_drop (s : StoreState) (n : String) (sch : Schema) :
    getSchema (createColl (dropColl s n) n sch) n = some sch := by
  show ((s.collections.filter (fun p => p.1 ≠ n) ++ [(n, sch)]).find? (fun p => p.1 = n)).map Prod.snd = some sch
  induction s.collections with
  | nil => simp
  | cons hd tl ih => by_cases hh : hd.1 = n <;> simp [hh, List.filter_cons, ih]

theorem processItem_ok_mono (env : Env) (c vfn : String) (st : IngestState)
    (it : DatasetItem) (st' : IngestState)
    (h : processItem env c vfn st it = Except.ok st') :
    st.inserted_count ≤ st'.inserted_count := by
  unfold processItem at h
  by_cases h1 : env.loadOk it.image_path = true
  · by_cases h2 : env.extractOk it.image_path = true
    · simp only [h1, h2, if_true] at h
      cases h
      simp only
      split <;> omega
    · simp [h1, h2] at h
  · simp [h1] at h

theorem insertLoop_mono (env : Env) (c vfn : String) (items : List DatasetItem) :
    ∀ st : IngestState, st.inserted_count ≤ (insertLoop env c vfn st items).1.inserted_count := by
  induction items with
  | nil => intro st; simp [insertLoop]
  | cons it rest ih =>
    intro st
    simp only [insertLoop]
    cases hp : processItem env c vfn st it with
    | ok st' => exact le_trans (processItem_ok_mono env c vfn st it st' hp) (ih st')
    | error e => simp


theorem insertLoop_all_ok (env : Env) (c vfn : String) (items : List DatasetItem)
    (h : ∀ it ∈ items, env.loadOk it.image_path = true ∧ env.extractOk it.image_path = true ∧
         env.insertCount (buildRecord it.image_path it.best_caption vfn (env.features it.image_path)) = 1) :
    ∀ st : IngestState,
      (insertLoop env c vfn st items).2 = none ∧
      (insertLoop env c vfn st items).1.attempted = st.attempted + items.length ∧
      (insertLoop env c vfn st items).1.inserted_count = st.inserted_count + items.length := by
  induction items with
  | nil => intro st; simp [insertLoop]
  | cons it rest ih =>
    intro st
    obtain ⟨h1, h2, h3⟩ := h it (List.mem_cons_self it rest)
    have ihrest := ih (fun it' hit' => h it' (List.mem_cons_of_mem _ hit'))
    simp only [insertLoop, processItem, h1, h2, h3, if_true]
    have hpos : (1 : Int) > 0 := by omega
    simp only [hpos, if_true]
    obtain ⟨ha, hb, hc⟩ := ihrest
      { inserted_count := st.inserted_count + 1, attempted := st.attempted + 1,
        events := st.events ++ [Event.extractFeaturesCall it.image_path,
          Event.insertCall c (buildRecord it.image_path it.best_caption vfn (env.features it.image_path))] }
    refine ⟨ha, ?_, ?_⟩
    · rw [hb]; simp; omega
    · rw [hc]; simp; omega


theorem processItem_ok_inv (env : Env) (c vfn : String) (st : IngestState)
    (it : DatasetItem) (st' : IngestState)
    (h : processItem env c vfn st it = Except.ok st') :
    env.loadOk it.image_path = true ∧ env.extractOk it.image_path = true ∧
    st'.attempted = st.attempted + 1 := by
  unfold processItem at h
  by_cases h1 : env.loadOk it.image_path = true
  · by_cases h2 : env.extractOk it.image_path = true
    · simp only [h1, h2, if_true] at h
      cases h
      exact ⟨h1, h2, rfl⟩
    · simp [h1, h2] at h
  · simp [h1] at h

theorem insertLoop_failure (env : Env) (c vfn : String) (items : List DatasetItem)
    (h : ∃ it ∈ items, ¬(env.loadOk it.image_path = true ∧ env.extractOk it.image_path = true)) :
    ∀ st : IngestState,
      (insertLoop env c vfn st items).2.isSome = true ∧
      (insertLoop env c vfn st items).1.attempted < st.attempted + items.length := by
  induction items with
  | nil => simp at h
  | cons it rest ih =>
    intro st
    simp only [insertLoop]
    cases hp : processItem env c vfn st it with
    | ok st' =>
      obtain ⟨h1, h2, hatt⟩ := processItem_ok_inv env c vfn st it st' hp
      have hrest : ∃ it' ∈ rest,
          ¬(env.loadOk it'.image_path = true ∧ env.extractOk it'.image_path = true) := by
        obtain ⟨w, hw, hnw⟩ := h
        rcases List.mem_cons.mp hw with rfl | hmem
        · exact absurd ⟨h1, h2⟩ hnw
        · exact ⟨w, hmem, hnw⟩
      obtain ⟨ha, hb⟩ := ih hrest st'
      refine ⟨ha, ?_⟩
      simp only [List.length_cons]
      omega
    | error e =>
      refine ⟨rfl, ?_⟩
      simp only [List.length_cons]
      omega


/-- C3: for a dataset of N items where every image load, every embedding
extraction, and every insert succeeds with an acknowledged count of 1, the
ingestion loop finishes without an exception, processes all N items, and
ends with `inserted_count = N`. -/
theorem C3_count_conservation (env : Env) (c vfn : String) (items : List DatasetItem)
    (h : ∀ it ∈ items, env.loadOk it.image_path = true ∧ env.extractOk it.image_path = true ∧
         env.insertCount (buildRecord it.image_path it.best_caption vfn (env.features it.image_path)) = 1) :
    (insert_data env c vfn items).2 = none ∧
    (insert_data env c vfn items).1.attempted = items.length ∧
    (insert_data env c vfn items).1.inserted_count = (items.length : Int) := by
  have hmain := insertLoop_all_ok env c vfn items h ⟨0, 0, []⟩
  simpa [insert_data] using hmain

/-- Witness for C3 at a concrete two-item dataset with an all-success
environment. -/
theorem C3_count_conservation_witness :
    (insert_data envAllOk "col" "vector" [⟨"a.jpg", "ca"⟩, ⟨"b.jpg", "cb"⟩]).2 = none ∧
    (insert_data envAllOk "col" "vector" [⟨"a.jpg", "ca"⟩, ⟨"b.jpg", "cb"⟩]).1.attempted =
      ([⟨"a.jpg", "ca"⟩, ⟨"b.jpg", "cb"⟩] : List DatasetItem).length ∧
    (insert_data envAllOk "col" "vector" [⟨"a.jpg", "ca"⟩, ⟨"b.jpg", "cb"⟩]).1.inserted_count =
      (([⟨"a.jpg", "ca"⟩, ⟨"b.jpg", "cb"⟩] : List DatasetItem).length : Int) :=
  C3_count_conservation envAllOk "col" "vector" [⟨"a.jpg", "ca"⟩, ⟨"b.jpg", "cb"⟩] (by decide)

/-- C2 fails on the code: `insert_data` has no per-item error handling, so a
dataset of N = 2 items whose first item fails to load ends with the
exception propagating (the run terminates early) and `inserted_count = 0`,
not N - K = 1. -/
theorem C2_counterexample :
    insert_data envC2 "col" "vector" itemsC2 =
      (⟨0, 0, []⟩, some (RunError.itemLoadError "bad.jpg")) ∧
    ¬((insert_data envC2 "col" "vector" itemsC2).2 = none ∧
      (insert_data envC2 "col" "vector" itemsC2).1.attempted = itemsC2.length ∧
      (insert_data envC2 "col" "vector" itemsC2).1.inserted_count = (itemsC2.length : Int) - 1) := by
  decide

/-- C2 amended: when at least one item fails at the image-load or
embedding-extraction step, the uncaught exception terminates the loop
early: the run ends with a propagated error and fewer than N completed
iterations. -/
theorem C2_failure_aborts_run (env : Env) (c vfn : String) (items : List DatasetItem)
    (h : ∃ it ∈ items, ¬(env.loadOk it.image_path = true ∧ env.extractOk it.image_path = true)) :
    (insert_data env c vfn items).2.isSome = true ∧
    (insert_data env c vfn items).1.attempted < items.length := by
  have hmain := insertLoop_failure env c vfn items h ⟨0, 0, []⟩
  simpa [insert_data] using hmain

/-- Witness for the amended C2 at a concrete failing dataset. -/
theorem C2_failure_aborts_run_witness :
    (insert_data envC2 "col" "vector" itemsC2).2.isSome = true ∧
    (insert_data envC2 "col" "vector" itemsC2).1.attempted < itemsC2.length :=
  C2_failure_aborts_run envC2 "col" "vector" itemsC2
    ⟨⟨"bad.jpg", "c1"⟩, by decide, by decide⟩

/-- C9: the record dict is built with keys `"filename"`, `"caption"`, then
the vector field name, in construction order; if the vector field name
collides with `"filename"` or `"caption"`, the embedding value overwrites
that attribute and the record carries only two keys. -/
theorem C9_record_construction (image_path caption vfn : String) (emb : List Int) :
    buildRecord image_path caption vfn emb =
      if vfn = "filename" then
        [("filename", Value.vec emb), ("caption", Value.str caption)]
      else if vfn = "caption" then
        [("filename", Value.str image_path), ("caption", Value.vec emb)]
      else
        [("filename", Value.str image_path), ("caption", Value.str caption),
         (vfn, Value.vec emb)] := by
  by_cases h1 : vfn = "filename"
  · subst h1; rfl
  · by_cases h2 : vfn = "caption"
    · subst h2; rfl
    · simp [buildRecord, dictAssign, h1, h2, Ne.symm h1, Ne.symm h2]

/-- C10: `inserted_count` starts at 0 (so the final count is nonnegative),
never decreases across loop iterations, and an iteration whose insert is
acknowledged with a non-positive count leaves it unchanged. -/
theorem C10_inserted_count_invariants (env : Env) (c vfn : String) :
    (∀ items : List DatasetItem, 0 ≤ (insert_data env c vfn items).1.inserted_count) ∧
    (∀ (st : IngestState) (items : List DatasetItem),
      st.inserted_count ≤ (insertLoop env c vfn st items).1.inserted_count) ∧
    (∀ (st : IngestState) (it : DatasetItem),
      env.loadOk it.image_path = true → env.extractOk it.image_path = true →
      env.insertCount (buildRecord it.image_path it.best_caption vfn (env.features it.image_path)) ≤ 0 →
      processItem env c vfn st it = Except.ok
        { inserted_count := st.inserted_count, attempted := st.attempted + 1,
          events := st.events ++ [Event.extractFeaturesCall it.image_path,
            Event.insertCall c (buildRecord it.image_path it.best_caption vfn
              (env.features it.image_path))] }) := by
  refine ⟨?_, ?_, ?_⟩
  · intro items
    have := insertLoop_mono env c vfn items ⟨0, 0, []⟩
    simpa [insert_data] using this
  · intro st items
    exact insertLoop_mono env c vfn items st
  · intro st it h1 h2 h3
    simp only [processItem, h1, h2, if_true]
    have : ¬(env.insertCount (buildRecord it.image_path it.best_caption vfn
        (env.features it.image_path)) > 0) := by omega
    simp [this]

/-- Witness for C10 with a zero-acknowledgment environment and the loop
state (5, 2, []). -/
theorem C10_inserted_count_invariants_witness :
    0 ≤ (insert_data envZeroAck "col" "vector" (oneItemDataset "/d")).1.inserted_count ∧
    (5 : Int) ≤ (insertLoop envZeroAck "col" "vector" ⟨5, 2, []⟩ (oneItemDataset "/d")).1.inserted_count ∧
    processItem envZeroAck "col" "vector" ⟨5, 2, []⟩ ⟨"img1.jpg", "a cat"⟩ =
      Except.ok ⟨5, 3, [Event.extractFeaturesCall "img1.jpg",
        Event.insertCall "col" (buildRecord "img1.jpg" "a cat" "vector"
          (envZeroAck.features "img1.jpg"))]⟩ := by
  obtain ⟨hA, hB, hC⟩ := C10_inserted_count_invariants envZeroAck "col" "vector"
  exact ⟨hA (oneItemDataset "/d"),
         hB ⟨5, 2, []⟩ (oneItemDataset "/d"),
         hC ⟨5, 2, []⟩ ⟨"img1.jpg", "a cat"⟩ rfl rfl (by decide)⟩


/-- C5 fails on the code: `create_collection` performs no dimension
validation. With `dimension = 0` and the name absent, the call lists the
collections (a store interaction), proceeds to create, and actually leaves
a collection with dimension 0 behind — no SchemaError, no abort. -/
theorem C5_counterexample :
    (create_collection ⟨[]⟩ "col" "vector" 0 "COSINE" false).2.1 = Outcome.created ∧
    getSchema (create_collection ⟨[]⟩ "col" "vector" 0 "COSINE" false).1 "col" =
      some ⟨"vector", 0, true, true, "COSINE"⟩ ∧
    ((create_collection ⟨[]⟩ "col" "vector" 0 "COSINE" false).2.2.any Event.isStoreCall) = true := by
  decide

/-- C5 amended: provisioning does not validate the dimension. For any
`dimension ≤ 0` and an absent name it behaves exactly like any other
create: it lists the collections and then issues the create call with that
dimension; any rejection would have to come from the remote store. -/
theorem C5_no_dimension_validation (s : StoreState) (n vfn : String) (d : Int) (m : String)
    (force : Bool) (_hd : d ≤ 0)
    (habsent : n ∉ listCollectionNames s) :
    create_collection s n vfn d m force =
      (createColl s n ⟨vfn, d, true, true, m⟩, Outcome.created,
       [Event.listCollectionsCall, Event.createCollectionCall n ⟨vfn, d, true, true, m⟩]) := by
  simp [create_collection, habsent]

/-- Witness for the amended C5 at dimension 0. -/
theorem C5_no_dimension_validation_witness :
    create_collection ⟨[]⟩ "col" "vector" (-3) "COSINE" false =
      (createColl ⟨[]⟩ "col" ⟨"vector", -3, true, true, "COSINE"⟩, Outcome.created,
       [Event.listCollectionsCall,
        Event.createCollectionCall "col" ⟨"vector", -3, true, true, "COSINE"⟩]) :=
  C5_no_dimension_validation ⟨[]⟩ "col" "vector" (-3) "COSINE" false (by decide) (by decide)

/-- C6: with `delete_existing_collection = true` and the name present,
provisioning drops the old collection and creates a new one, so the
resulting schema is exactly the new spec, whatever the old schema was; the
calls made are list, drop, create, in that order. -/
theorem C6_replacement (s : StoreState) (n vfn : String) (d : Int) (m : String)
    (hpresent : n ∈ listCollectionNames s) :
    (create_collection s n vfn d m true).2.1 = Outcome.replaced ∧
    getSchema (create_collection s n vfn d m true).1 n = some ⟨vfn, d, true, true, m⟩ ∧
    (create_collection s n vfn d m true).2.2 =
      [Event.listCollectionsCall, Event.dropCollectionCall n,
       Event.createCollectionCall n ⟨vfn, d, true, true, m⟩] := by
  refine ⟨?_, ?_, ?_⟩ <;>
    simp [create_collection, hpresent, getSchema_create_drop]

/-- Witness for C6: replacing a dimension-8 collection with a dimension-4
spec. -/
theorem C6_replacement_witness :
    (create_collection s0C1 "col" "vector" 4 "COSINE" true).2.1 = Outcome.replaced ∧
    getSchema (create_collection s0C1 "col" "vector" 4 "COSINE" true).1 "col" =
      some ⟨"vector", 4, true, true, "COSINE"⟩ ∧
    (create_collection s0C1 "col" "vector" 4 "COSINE" true).2.2 =
      [Event.listCollectionsCall, Event.dropCollectionCall "col",
       Event.createCollectionCall "col" ⟨"vector", 4, true, true, "COSINE"⟩] :=
  C6_replacement s0C1 "col" "vector" 4 "COSINE" (by decide)

/-- C7: provisioning twice with the same absent name and the flag off
yields Created then Skipped; the second call makes only the list call, so
the store state — in particular the collection's schema — is unchanged. -/
theorem C7_idempotent_provisioning (s : StoreState) (n vfn : String) (d : Int) (m : String)
    (habsent : n ∉ listCollectionNames s) :
    (create_collection s n vfn d m false).2.1 = Outcome.created ∧
    (create_collection (create_collection s n vfn d m false).1 n vfn d m false).2.1 =
      Outcome.skipped ∧
    (create_collection (create_collection s n vfn d m false).1 n vfn d m false).1 =
      (create_collection s n vfn d m false).1 ∧
    (create_collection (create_collection s n vfn d m false).1 n vfn d m false).2.2 =
      [Event.listCollectionsCall] := by
  have h2 := mem_createColl s n ⟨vfn, d, true, true, m⟩
  refine ⟨?_, ?_, ?_, ?_⟩ <;> simp [create_collection, habsent, h2]

/-- Witness for C7 on an empty store. -/
theorem C7_idempotent_provisioning_witness :
    (create_collection ⟨[]⟩ "col" "vector" 4 "COSINE" false).2.1 = Outcome.created ∧
    (create_collection (create_collection ⟨[]⟩ "col" "vector" 4 "COSINE" false).1
        "col" "vector" 4 "COSINE" false).2.1 = Outcome.skipped ∧
    (create_collection (create_collection ⟨[]⟩ "col" "vector" 4 "COSINE" false).1
        "col" "vector" 4 "COSINE" false).1 =
      (create_collection ⟨[]⟩ "col" "vector" 4 "COSINE" false).1 ∧
    (create_collection (create_collection ⟨[]⟩ "col" "vector" 4 "COSINE" false).1
        "col" "vector" 4 "COSINE" false).2.2 = [Event.listCollectionsCall] :=
  C7_idempotent_provisioning ⟨[]⟩ "col" "vector" 4 "COSINE" (by decide)

/-- C8: when the name is absent, provisioning with the replacement flag on
is literally the same computation as with it off — same resulting state,
same outcome (Created), same calls — and no drop call is issued. -/
theorem C8_force_on_absent (s : StoreState) (n vfn : String) (d : Int) (m : String)
    (habsent : n ∉ listCollectionNames s) :
    create_collection s n vfn d m true = create_collection s n vfn d m false ∧
    ((create_collection s n vfn d m true).2.2.any Event.isDrop) = false := by
  refine ⟨?_, ?_⟩ <;> simp [create_collection, habsent, Event.isDrop]

/-- Witness for C8 on an empty store. -/
theorem C8_force_on_absent_witness :
    create_collection ⟨[]⟩ "col" "vector" 4 "COSINE" true =
      create_collection ⟨[]⟩ "col" "vector" 4 "COSINE" false ∧
    ((create_collection ⟨[]⟩ "col" "vector" 4 "COSINE" true).2.2.any Event.isDrop) = false :=
  C8_force_on_absent ⟨[]⟩ "col" "vector" 4 "COSINE" (by decide)


theorem create_collection_events (s : StoreState) (n vfn : String) (d : Int) (m : String)
    (force : Bool) :
    Event.listCollectionsCall ∈ (create_collection s n vfn d m force).2.2 ∧
    ((create_collection s n vfn d m force).2.2.any Event.isInsert) = false ∧
    ((create_collection s n vfn d m force).2.2.any Event.isExtract) = false := by
  unfold create_collection
  split
  · split <;> simp [Event.isInsert, Event.isExtract]
  · simp [Event.isInsert, Event.isExtract]

/-- C1 fails on the code: in a run where provisioning finds the collection
present with the replacement flag off (so it skips), `main` still invokes
the ingestion step — the event trace contains extractor calls and insert
calls. -/
theorem C1_counterexample :
    (create_collection s0C1 "col" "vector" 4 "COSINE" false).2.1 = Outcome.skipped ∧
    ((main "vector" envAllOk oneItemDataset oneItemDataset argsC1 s0C1).2.1.any
      Event.isExtract) = true ∧
    ((main "vector" envAllOk oneItemDataset oneItemDataset argsC1 s0C1).2.1.any
      Event.isInsert) = true := by
  decide

/-- C1 amended: when provisioning finds the collection present and the
replacement flag is off it returns Skipped and mutates nothing, but the
skip does not gate ingestion — `main` proceeds to run the full ingestion
loop over the dataset, so the extractor and the insert endpoint are called
for every (successful) item. -/
theorem C1_skip_does_not_block_ingestion (vfnD : String) (env : Env)
    (d8 d30 : String → List DatasetItem) (args : Args) (s : StoreState)
    (hdt : args.data_type = some "flickr8k")
    (hforce : args.delete_existing_collection = false)
    (hpresent : args.collection_name ∈ listCollectionNames s) :
    (create_collection s args.collection_name vfnD args.dimension args.metric_type
        args.delete_existing_collection).2.1 = Outcome.skipped ∧
    (main vfnD env d8 d30 args s).1 =
      MainResult.finished (insert_data env args.collection_name vfnD (d8 args.data_path)).1
        (insert_data env args.collection_name vfnD (d8 args.data_path)).2 ∧
    (main vfnD env d8 d30 args s).2.1 =
      Event.clientConstruct args.uri args.db_name :: Event.listCollectionsCall ::
        (insert_data env args.collection_name vfnD (d8 args.data_path)).1.events := by
  refine ⟨?_, ?_, ?_⟩ <;>
    simp [main, create_collection, parse_args_ok, hdt, hforce, hpresent]

/-- Witness for the amended C1 at a concrete skipping run. -/
theorem C1_skip_does_not_block_ingestion_witness :
    (create_collection s0C1 argsC1.collection_name "vector" argsC1.dimension
        argsC1.metric_type argsC1.delete_existing_collection).2.1 = Outcome.skipped ∧
    (main "vector" envAllOk oneItemDataset oneItemDataset argsC1 s0C1).1 =
      MainResult.finished
        (insert_data envAllOk argsC1.collection_name "vector" (oneItemDataset argsC1.data_path)).1
        (insert_data envAllOk argsC1.collection_name "vector" (oneItemDataset argsC1.data_path)).2 ∧
    (main "vector" envAllOk oneItemDataset oneItemDataset argsC1 s0C1).2.1 =
      Event.clientConstruct argsC1.uri argsC1.db_name :: Event.listCollectionsCall ::
        (insert_data envAllOk argsC1.collection_name "vector" (oneItemDataset argsC1.data_path)).1.events :=
  C1_skip_does_not_block_ingestion "vector" envAllOk oneItemDataset oneItemDataset
    argsC1 s0C1 rfl rfl (by decide)

/-- C4 fails on the code: invoking the program with no dataset type (the
flag is optional, so `None` reaches `main`) ends in the `ValueError`, but
only after the client is constructed and the store has been contacted —
the trace contains store calls before the termination. -/
theorem C4_counterexample :
    (main "vector" envAllOk oneItemDataset oneItemDataset argsC4 ⟨[]⟩).1 =
      MainResult.valueError ∧
    ((main "vector" envAllOk oneItemDataset oneItemDataset argsC4 ⟨[]⟩).2.1.any
      Event.isStoreCall) = true := by
  decide

/-- C4 amended: an explicitly supplied unsupported dataset type is rejected
by argparse before anything runs (non-zero exit, no store contact); but an
absent dataset type passes parsing, and the `ValueError` is raised only
after the client is constructed and provisioning has contacted the store
(the list call, plus create or drop as applicable). No insert or extractor
calls are made in either case. -/
theorem C4_unsupported_type (vfnD : String) (env : Env)
    (d8 d30 : String → List DatasetItem) (args : Args) (s : StoreState) :
    (∀ t : String, args.data_type = some t → t ≠ "flickr8k" → t ≠ "flickr30k" →
      main vfnD env d8 d30 args s = (MainResult.argparseExit, [], s)) ∧
    (args.data_type = none →
      main vfnD env d8 d30 args s =
        (MainResult.valueError,
         Event.clientConstruct args.uri args.db_name ::
           (create_collection s args.collection_name vfnD args.dimension args.metric_type
              args.delete_existing_collection).2.2,
         (create_collection s args.collection_name vfnD args.dimension args.metric_type
            args.delete_existing_collection).1) ∧
      Event.listCollectionsCall ∈ (main vfnD env d8 d30 args s).2.1 ∧
      ((main vfnD env d8 d30 args s).2.1.any Event.isInsert) = false ∧
      ((main vfnD env d8 d30 args s).2.1.any Event.isExtract) = false) := by
  constructor
  · intro t hdt ht1 ht2
    simp [main, parse_args_ok, hdt, ht1, ht2]
  · intro hnone
    obtain ⟨hmem, hins, hext⟩ := create_collection_events s args.collection_name vfnD
      args.dimension args.metric_type args.delete_existing_collection
    refine ⟨?_, ?_, ?_, ?_⟩ <;>
      simp [main, parse_args_ok, hnone, Event.isInsert, Event.isExtract, hmem, hins, hext]

/-- Witness for the amended C4: an explicit `"coco"` type exits at parsing
with no calls at all; an absent type reaches the `ValueError` only after
client construction and provisioning. -/
theorem C4_unsupported_type_witness :
    main "vector" envAllOk oneItemDataset oneItemDataset
      ⟨"/data", some "coco", "http://x", "col", "db", 4, "COSINE", false⟩ ⟨[]⟩ =
      (MainResult.argparseExit, [], ⟨[]⟩) ∧
    main "vector" envAllOk oneItemDataset oneItemDataset argsC4 ⟨[]⟩ =
      (MainResult.valueError,
       Event.clientConstruct argsC4.uri argsC4.db_name ::
         (create_collection ⟨[]⟩ argsC4.collection_name "vector" argsC4.dimension
            argsC4.metric_type argsC4.delete_existing_collection).2.2,
       (create_collection ⟨[]⟩ argsC4.collection_name "vector" argsC4.dimension
          argsC4.metric_type argsC4.delete_existing_collection).1) := by
  constructor
  · exact (C4_unsupported_type "vector" envAllOk oneItemDataset oneItemDataset
      ⟨"/data", some "coco", "http://x", "col", "db", 4, "COSINE", false⟩ ⟨[]⟩).1
      "coco" rfl (by decide) (by decide)
  · exact ((C4_unsupported_type "vector" envAllOk oneItemDataset oneItemDataset
      argsC4 ⟨[]⟩).2 rfl).1

end SentinelIngest
